import Mathlib

/-!
# Verification of the EGT widget/frame composition core

Shallow embedding of the damage-tracking, geometry-change, event-dispatch,
coordinate-transform, palette/font-resolution and sprite frame-addressing
logic of `src/widget.cpp` and `sprite.cpp`, with theorems settling the
spec's claims about them.

Machine integers are modelled as `Int` (coordinates) and `Nat`
(sprite offsets, which are non-negative in all uses); the float alpha
channel is modelled as `ℚ`.
-/

namespace Egt

/-- Modelled from the spec: geometry primitives (the rectangle/point module is
outside the provided sources). A point with integer coordinates. -/
structure Point where
  x : Int
  y : Int
deriving DecidableEq, Repr

instance : Add Point := ⟨fun a b => ⟨a.x + b.x, a.y + b.y⟩⟩
instance : Sub Point := ⟨fun a b => ⟨a.x - b.x, a.y - b.y⟩⟩

/-- Modelled from the spec: a size (width/height). -/
structure Size where
  w : Int
  h : Int
deriving DecidableEq, Repr

/-- Modelled from the spec: a rectangle, position plus size, as in the
geometry module (`Rect(x, y, w, h)`). -/
structure Rect where
  x : Int
  y : Int
  w : Int
  h : Int
deriving DecidableEq, Repr

namespace Rect

/-- `Rect::empty()`: a rectangle with no area. -/
def empty (r : Rect) : Bool := r.w ≤ 0 || r.h ≤ 0

/-- `Rect::point()`. -/
def point (r : Rect) : Point := ⟨r.x, r.y⟩

/-- `Rect::size()`. -/
def size (r : Rect) : Size := ⟨r.w, r.h⟩

/-- Setting the position component, `m_box.point(point)`. -/
def withPoint (r : Rect) (p : Point) : Rect := ⟨p.x, p.y, r.w, r.h⟩

/-- Setting the size component, `m_box.size(size)`. -/
def withSize (r : Rect) (s : Size) : Rect := ⟨r.x, r.y, s.w, s.h⟩

/-- Translation of a rectangle by a point (`rect + point`). -/
def translate (r : Rect) (p : Point) : Rect := ⟨r.x + p.x, r.y + p.y, r.w, r.h⟩

/-- Modelled from the spec: `Rect::intersection(a, b)` — the overlapping
region of two rectangles, the all-zero rectangle when they are disjoint. -/
def intersection (a b : Rect) : Rect :=
  let x0 := max a.x b.x
  let y0 := max a.y b.y
  let w0 := min (a.x + a.w) (b.x + b.w) - x0
  let h0 := min (a.y + a.h) (b.y + b.h) - y0
  if w0 < 0 || h0 < 0 then ⟨0, 0, 0, 0⟩ else ⟨x0, y0, w0, h0⟩

/-- Modelled from the spec: `Rect::intersect(point)` — point containment. -/
def containsPoint (r : Rect) (p : Point) : Bool :=
  r.x ≤ p.x && p.x < r.x + r.w && r.y ≤ p.y && p.y < r.y + r.h

/-- Modelled from the spec: `Rect::intersect(rect)` — overlap test between
two rectangles. -/
def intersects (a b : Rect) : Bool :=
  a.x < b.x + b.w && b.x < a.x + a.w && a.y < b.y + b.h && b.y < a.y + a.h

/-- Modelled from the spec: `Rect::merge(a, b)` — the bounding rectangle of
two rectangles, used by the damage-coalescing algorithm. -/
def merge (a b : Rect) : Rect :=
  let x0 := min a.x b.x
  let y0 := min a.y b.y
  ⟨x0, y0, max (a.x + a.w) (b.x + b.w) - x0, max (a.y + a.h) (b.y + b.h) - y0⟩

/-- Spatial containment: every part of `a` lies inside `b`. -/
def subset (a b : Rect) : Prop :=
  b.x ≤ a.x ∧ b.y ≤ a.y ∧ a.x + a.w ≤ b.x + b.w ∧ a.y + a.h ≤ b.y + b.h

instance (a b : Rect) : Decidable (subset a b) := by
  unfold subset; infer_instance

end Rect

/-- Modelled from the spec: the Screen damage-merge primitive
(`Screen::damage_algorithm`): an empty rectangle is ignored; otherwise the
new rectangle is coalesced with every dirty rectangle it overlaps (taking
the bounding rectangle) and the result is recorded. -/
def damage_algorithm (ls : List Rect) (r : Rect) : List Rect :=
  if r.empty then ls else go ls r
where
  go : List Rect → Rect → List Rect
    | [], r => [r]
    | i :: rest, r =>
      if Rect.intersects i r then go rest (Rect.merge i r) else i :: go rest r

/-- The per-widget state that the damage path of `src/src/widget.cpp`
reads and writes: `m_box`, the `invisible` flag, whether the widget is
directly backed by a screen (`has_screen()`), the `m_in_draw` reentrancy
flag and the screen's dirty-rectangle set `m_damage`. -/
structure Widget where
  m_box : Rect
  m_invisible : Bool
  m_has_screen : Bool
  m_in_draw : Bool
  m_damage : List Rect
deriving DecidableEq, Repr

namespace Widget

/-- `Widget::visible()`: modelled from the spec — true when the `invisible`
flag is clear. -/
def visible (w : Widget) : Bool := !w.m_invisible

/-- `Widget::point()`: the box's position. -/
def point (w : Widget) : Point := w.m_box.point

/-- Modelled from the spec: `Widget::to_child(rect)` (declared in the
header, outside the provided sources) — translates a rectangle from the
parent-relative space of `box()` into the widget's local space, the
rectangle counterpart of `to_child(point) = point - point()`. -/
def to_child (w : Widget) (r : Rect) : Rect :=
  ⟨r.x - w.m_box.x, r.y - w.m_box.y, r.w, r.h⟩

/-- `Widget::add_damage` (widget.cpp:448-471). The two `assert`s are
modelled as fatal outcomes (`Except.error`), per the error-handling design:
calling without a screen, or while `m_in_draw` is set, is a fatal
programming error. On success the rectangle is first intersected with
`to_child(box())` and then merged into `m_damage`. -/
def add_damage (w : Widget) (rect : Rect) : Except String Widget :=
  if !w.m_has_screen then .error "assert failed: has_screen()"
  else if rect.empty then .ok w
  else if w.m_in_draw then .error "assert failed: !m_in_draw"
  else .ok { w with
             m_damage := damage_algorithm w.m_damage
                           (Rect.intersection rect (w.to_child w.m_box)) }

end Widget

/-- A widget together with its ancestor chain: the head is the widget
itself, the tail its parent, grandparent, … up to the root. `parent()`
is the head of the tail. -/
abbrev Chain := List Widget

/-- `Widget::damage(rect)` (widget.cpp:426-446) over a widget and its
ancestor chain. An empty rectangle or an invisible widget is a no-op; a
widget with no screen forwards the damage, translated by the parent's
point (`to_parent(r) = r + parent()->point()`, widget.cpp:573-579), to the
parent (`damage_from_child`, modelled from the spec as the parent's own
`damage`), or discards it when there is no parent; a widget with a screen
merges it via `add_damage`. -/
def damage : Chain → Rect → Except String Chain
  | [], _ => .ok []
  | w :: ps, rect =>
    if rect.empty then .ok (w :: ps)
    else if !w.visible then .ok (w :: ps)
    else if !w.m_has_screen then
      match ps with
      | [] => .ok (w :: ps)
      | p :: ps2 => do
          let ps' ← damage (p :: ps2) (rect.translate p.point)
          return w :: ps'
    else do
      let w' ← w.add_damage rect
      return w' :: ps

/-! ## Geometry changes: `Widget::move` / `Widget::resize` -/

/-- An observable effect of a geometry change: a `damage()` call (with the
rectangle it damages, `box()` at the time of the call), a call to
`parent_layout()`, or a call to this widget's own `layout()`. -/
inductive GeomEvent where
  | damage (r : Rect)
  | parent_layout
  | layout
deriving DecidableEq, Repr

/-- The widget state the move/resize path reads and writes: `m_box`,
`m_user_requested_box`, and the conditions queried by the source —
`parent_in_layout()`, `in_layout()` and whether `m_children` is empty. -/
structure WidgetGeom where
  m_box : Rect
  m_user_requested_box : Rect
  parent_in_layout : Bool
  m_in_layout : Bool
  has_children : Bool
deriving DecidableEq, Repr

/-- `Widget::move(point)` (widget.cpp:239-253): compares against the
current position; on a change it damages the old box, applies the point,
damages the new box, records the user-requested point unless the move came
from a layout pass, and notifies the parent layout. Returns the new state
and the ordered list of effects. -/
def WidgetGeom.move (w : WidgetGeom) (p : Point) : WidgetGeom × List GeomEvent :=
  if p ≠ w.m_box.point then
    let newbox := w.m_box.withPoint p
    ({ w with
       m_box := newbox
       m_user_requested_box :=
         if !w.parent_in_layout then w.m_user_requested_box.withPoint p
         else w.m_user_requested_box },
     [.damage w.m_box, .damage newbox, .parent_layout])
  else (w, [])

/-- `Widget::resize(size)` (widget.cpp:213-230): compares against the
current size; on a change it damages the old box, applies the size,
damages the new box, records the user-requested size unless the resize
came from a layout pass, notifies the parent layout, and lays out its own
children when it has any. -/
def WidgetGeom.resize (w : WidgetGeom) (s : Size) : WidgetGeom × List GeomEvent :=
  if s ≠ w.m_box.size then
    let newbox := w.m_box.withSize s
    ({ w with
       m_box := newbox
       m_user_requested_box :=
         if !w.parent_in_layout && !w.m_in_layout then w.m_user_requested_box.withSize s
         else w.m_user_requested_box },
     [.damage w.m_box, .damage newbox, .parent_layout]
       ++ if w.has_children then [.layout] else [])
  else (w, [])

/-! ## Visibility: `Widget::hide` / `Widget::show` -/

/-- A `damage()` call issued by `hide()`/`show()`: the rectangle damaged
(`box()` at call time) and the widget's visibility as the call sees it
(`visible()` at the moment `damage()` runs, which decides whether the
damage propagates). -/
structure VisEvent where
  rect : Rect
  seen_visible : Bool
deriving DecidableEq, Repr

/-- The widget state the hide/show path touches. -/
structure WidgetVis where
  m_box : Rect
  m_invisible : Bool
deriving DecidableEq, Repr

/-- `Widget::hide()` (widget.cpp:261-269): a no-op when already invisible;
otherwise it calls `damage()` first — while `visible()` is still true —
and only then sets the invisible flag. -/
def WidgetVis.hide (w : WidgetVis) : WidgetVis × List VisEvent :=
  if w.m_invisible then (w, [])
  else ({ w with m_invisible := true }, [⟨w.m_box, !w.m_invisible⟩])

/-- `Widget::show()` (widget.cpp:271-279): a no-op when already visible;
otherwise it clears the invisible flag first and calls `damage()` after,
so the call sees the widget as visible. -/
def WidgetVis.show (w : WidgetVis) : WidgetVis × List VisEvent :=
  if !w.m_invisible then (w, [])
  else
    let w1 : WidgetVis := { w with m_invisible := false }
    (w1, [⟨w1.m_box, !w1.m_invisible⟩])

/-! ## Tree structure: `Widget::set_parent` -/

/-- The tree state `set_parent` touches: this widget's identity and its
parent back-reference (widget identities are the monotonically increasing
unique ids). -/
structure WidgetTree where
  selfid : Nat
  m_parent : Option Nat
deriving DecidableEq, Repr

/-- `Widget::set_parent(parent)` (widget.cpp:1101-1113). Both guards —
`assert(!m_parent)` backed by a `throw`, and the self-parent `throw` — are
fatal outcomes; the parent pointer is assigned only when neither fires, so
on an error the tree is unchanged. Returns the resulting state and the
fatal condition if one was signalled. -/
def WidgetTree.set_parent (w : WidgetTree) (parent : Nat) : WidgetTree × Option String :=
  if w.m_parent.isSome then (w, some "widget already has a parent")
  else if parent = w.selfid then (w, some "cannot add a widget to itself")
  else ({ w with m_parent := some parent }, none)

/-! ## Coordinate transforms -/

/-- A widget's position data for the coordinate transforms: its own
`point()` and the `point()` of each ancestor, parent first, root last —
the chain walked by `local_to_display`, `display_to_local` and
`display_origin`. -/
structure WidgetPos where
  selfPoint : Point
  ancestors : List Point
deriving DecidableEq, Repr

/-- `Widget::local_to_display(p)` (widget.cpp:1135-1147): starts from `p`,
adds every ancestor's point while walking to the root, then adds the
widget's own point. -/
def WidgetPos.local_to_display (w : WidgetPos) (p : Point) : Point :=
  (w.ancestors.foldl (fun acc q => acc + q) p) + w.selfPoint

/-- `Widget::display_to_local(p)` (widget.cpp:1149-1161): starts from `p`,
subtracts every ancestor's point while walking to the root, then subtracts
the widget's own point. -/
def WidgetPos.display_to_local (w : WidgetPos) (p : Point) : Point :=
  (w.ancestors.foldl (fun acc q => acc - q) p) - w.selfPoint

/-- `Widget::display_origin()` (widget.cpp:581-593): starts from the
widget's own point and adds every ancestor's point while walking to the
root. -/
def WidgetPos.display_origin (w : WidgetPos) : Point :=
  w.ancestors.foldl (fun acc q => acc + q) w.selfPoint

/-- The spec-side description of `display_origin`: the plain sum of the
local points of the whole chain (self point first, then each ancestor up
to the root). -/
def chain_point_sum (ps : List Point) : Point :=
  ps.foldr (fun q acc => q + acc) ⟨0, 0⟩

/-! ## Alpha channel: `Widget::alpha(float)` -/

/-- Modelled from the spec: `detail::clamp(v, lo, hi)` (outside the
provided sources; standard clamp semantics, `v < lo ? lo : hi < v ? hi : v`).
The float is modelled as `ℚ`. -/
def clamp (v lo hi : ℚ) : ℚ := if v < lo then lo else if hi < v then hi else v

/-- The widget state the alpha setter touches. -/
structure WidgetAlpha where
  m_alpha : ℚ
deriving DecidableEq, Repr

/-- `Widget::alpha(alpha)` (widget.cpp:413-419): the input is clamped into
`[0, 1]` first; `detail::change_if_diff` then stores it and triggers
`damage()` only when the clamped value differs from the current one.
Returns the new state and whether damage was triggered. -/
def WidgetAlpha.alpha (w : WidgetAlpha) (a : ℚ) : WidgetAlpha × Bool :=
  let a' := clamp a 0 1
  if a' ≠ w.m_alpha then (⟨a'⟩, true) else (w, false)

/-- A sequence of alpha-setter operations, folded left to right. -/
def WidgetAlpha.alpha_seq (w : WidgetAlpha) (as : List ℚ) : WidgetAlpha :=
  as.foldl (fun w a => (w.alpha a).1) w

/-! ## Event dispatch: the child loops of `Widget::handle` -/

/-- The per-child state the dispatch loops of `Widget::handle` read: the
visibility and disabled flags, the child's `box()` (parent-relative), and
whether the child's own handling marks the event consumed (`event.quit()`
set after `child->handle(event)`). -/
structure Child where
  m_invisible : Bool
  m_disabled : Bool
  m_box : Rect
  consumes : Bool
deriving DecidableEq, Repr

/-- Modelled from the spec: `Widget::can_handle_event()` (outside the
provided sources) — a child is eligible when it is visible and enabled. -/
def Child.can_handle_event (c : Child) : Bool := !c.m_invisible && !c.m_disabled

/-- The pointer-event child loop of `Widget::handle`
(widget.cpp:144-169), already iterating in reverse z-order: skip a child
that cannot handle events; deliver to the first one whose box contains the
(local) point and stop. Returns the child the event was delivered to. -/
def pointer_loop : List Child → Point → Option Child
  | [], _ => none
  | c :: rest, pos =>
    if !c.can_handle_event then pointer_loop rest pos
    else if c.m_box.containsPoint pos then some c
    else pointer_loop rest pos

/-- Pointer dispatch of `Widget::handle`: the event's display point is
converted to local coordinates with `display_to_local`, and the children
are walked topmost-first (`detail::reverse_iterate` over the z-ordered
child list, whose back is topmost). -/
def handle_pointer (w : WidgetPos) (children : List Child) (displayPoint : Point) :
    Option Child :=
  pointer_loop children.reverse (w.display_to_local displayPoint)

/-- The keyboard-event child loop of `Widget::handle`
(widget.cpp:171-186), already iterating in reverse z-order: skip a child
that cannot handle events; otherwise deliver to it, and stop as soon as a
delivery marks the event consumed. Returns the children visited, in
order. -/
def keyboard_loop : List Child → List Child
  | [] => []
  | c :: rest =>
    if !c.can_handle_event then keyboard_loop rest
    else if c.consumes then [c]
    else c :: keyboard_loop rest

/-- Keyboard dispatch of `Widget::handle`: every eligible child, walked
topmost-first. -/
def handle_keyboard (children : List Child) : List Child :=
  keyboard_loop children.reverse

/-- The spec-side description of the keyboard loop's early stop: visit the
(already filtered, already reversed) eligible children in order, keeping
everything up to and including the first one that consumes the event. -/
def visit_until_consumed : List Child → List Child
  | [] => []
  | c :: rest => if c.consumes then [c] else c :: visit_until_consumed rest

/-! ## Palette / font resolution -/

/-- `Palette::GroupId`: the widget-state color groups. -/
inductive GroupId where
  | normal
  | checked
  | active
  | disabled
deriving DecidableEq, BEq, Repr

/-- Color ids and patterns are opaque to the resolution chain. -/
abbrev ColorId := Nat

/-- A resolved color value. -/
abbrev Pattern := Nat

/-- Modelled from the spec: a per-widget palette override — a finite table
of (color id, group) entries; `exists(id, group)` is lookup success. -/
def Palette := List ((ColorId × GroupId) × Pattern)

/-- `Palette::exists(id, group, &color)`. -/
def palette_lookup (pal : Palette) (id : ColorId) (g : GroupId) : Option Pattern :=
  List.lookup (id, g) pal

/-- The process-wide fallbacks of the resolution chain: the optional
global palette (`global_palette()`) and the active global theme's default
palette (`global_theme().palette()`), which per the spec is total — the
terminal fallback that never fails. -/
structure ResolveEnv where
  global_palette : Option (ColorId → GroupId → Pattern)
  theme_palette : ColorId → GroupId → Pattern

/-- The terminal fallback of the two-argument resolver (widget.cpp:513-516):
the global palette when set, else the global theme's default palette. -/
def ResolveEnv.fallback (env : ResolveEnv) (id : ColorId) (g : GroupId) : Pattern :=
  match env.global_palette with
  | some gp => gp id g
  | none => env.theme_palette id g

/-- The two-argument resolver `Widget::color(id, group)`
(widget.cpp:501-517) over the widget's override chain (head: the widget's
own optional `m_palette`; tail: each ancestor's, parent first): return the
widget's own entry when it exists, else recurse to the parent, and only at
the root fall back to the global palette and finally the theme default. -/
def resolve_color (env : ResolveEnv) : List (Option Palette) → ColorId → GroupId → Pattern
  | [], id, g => env.fallback id g
  | op :: rest, id, g =>
    match op.bind (fun pal => palette_lookup pal id g) with
    | some c => c
    | none => resolve_color env rest id g

/-- The state-group inference of the one-argument `Widget::color(id)`
(widget.cpp:488-499): disabled wins over active, active over checked,
checked over normal. -/
def infer_group (disabled active checked : Bool) : GroupId :=
  if disabled then .disabled
  else if active then .active
  else if checked then .checked
  else .normal

/-- `Widget::color(id)` (widget.cpp:488-499): infer the state group from
the widget's flags, then run the two-argument resolver. -/
def color_one (env : ResolveEnv) (chain : List (Option Palette))
    (disabled active checked : Bool) (id : ColorId) : Pattern :=
  resolve_color env chain id (infer_group disabled active checked)

/-- A font value, opaque to the resolution chain. -/
abbrev FontVal := Nat

/-- The process-wide font fallbacks: `global_font()` and
`global_theme().font()`. -/
structure FontEnv where
  global_font : Option FontVal
  theme_font : FontVal

/-- `Widget::font()` (widget.cpp:1163-1175) over the widget's override
chain (head: the widget's own optional `m_font`; tail: each ancestor's,
parent first): own override, else parent, and only at the root the global
font and finally the theme default. -/
def resolve_font (env : FontEnv) : List (Option FontVal) → FontVal
  | [] =>
    match env.global_font with
    | some f => f
    | none => env.theme_font
  | of :: rest =>
    match of with
    | some f => f
    | none => resolve_font env rest

/-! ## Sprite frame-strip addressing -/

/-- The strip parameters of the sprite compositor: the strip's base offset
into the sheet (`framex`, `framey`), the frame size (`m_frame`), and the
sheet width (`imagew`). All quantities are non-negative in every use, so
they are modelled as `Nat` (C's `/` and `%` agree with `Nat.div`/`Nat.mod`
on non-negative operands). -/
structure SpriteSheet where
  framex : Nat
  framey : Nat
  frame_w : Nat
  frame_h : Nat
  imagew : Nat
deriving DecidableEq, Repr

/-- The frame-strip pan-position computation shared by
`HardwareSprite::show_frame` (sprite.cpp:58-83), `HardwareSprite::surface`
and `SoftwareSprite::draw` (sprite.cpp:143-161): the horizontal strip
position, wrapped onto subsequent sheet rows when the frame would reach or
pass the sheet's right edge. -/
def pan_pos (s : SpriteSheet) (index : Nat) : Nat × Nat :=
  let panx := s.framex + index * s.frame_w
  let pany := s.framey
  if panx + s.frame_w ≥ s.imagew then
    let x := s.framex + index * s.frame_w
    (x % s.imagew, (x / s.imagew) * s.framey + (x / s.imagew) * s.frame_h)
  else
    (panx, pany)

/-- `HardwareSprite::show_frame(index)` / `SoftwareSprite::show_frame`:
an explicit seek is a no-op when already on that frame; otherwise the
frame index changes and the pan position is (re)applied / the widget
damaged. Returns the new index and the pan position applied, if any. -/
def show_frame (s : SpriteSheet) (m_index index : Nat) : Nat × Option (Nat × Nat) :=
  if index ≠ m_index then (index, some (pan_pos s index)) else (m_index, none)

/-! ## Helper lemmas -/

theorem Point.add_def (a b : Point) : a + b = ⟨a.x + b.x, a.y + b.y⟩ := rfl

theorem Point.sub_def (a b : Point) : a - b = ⟨a.x - b.x, a.y - b.y⟩ := rfl

theorem chain_point_sum_nil : chain_point_sum [] = ⟨0, 0⟩ := rfl

theorem chain_point_sum_cons (q : Point) (ls : List Point) :
    chain_point_sum (q :: ls) = q + chain_point_sum ls := rfl

theorem foldl_add_point (ls : List Point) (p : Point) :
    ls.foldl (fun acc q => acc + q) p = p + chain_point_sum ls := by
  induction ls generalizing p with
  | nil => cases p; simp [chain_point_sum_nil, Point.add_def]
  | cons q ls ih =>
    rw [List.foldl_cons, ih, chain_point_sum_cons]
    simp only [Point.add_def, Point.mk.injEq]
    omega

theorem foldl_sub_point (ls : List Point) (p : Point) :
    ls.foldl (fun acc q => acc - q) p = p - chain_point_sum ls := by
  induction ls generalizing p with
  | nil => cases p; simp [chain_point_sum_nil, Point.sub_def]
  | cons q ls ih =>
    rw [List.foldl_cons, ih, chain_point_sum_cons]
    simp only [Point.add_def, Point.sub_def, Point.mk.injEq]
    omega

/-! ## Claims -/

/-- C2: for every widget `W`, `W.move(W.box().point())` and
`W.resize(W.box().size())` produce zero damage calls and zero layout
triggers and leave all widget state unchanged: both compare against the
current geometry and the equal case does nothing. -/
theorem claim_C2_noop_geometry (w : WidgetGeom) :
    w.move w.m_box.point = (w, []) ∧ w.resize w.m_box.size = (w, []) := by
  constructor <;> simp [WidgetGeom.move, WidgetGeom.resize]

/-- C5: `set_parent` signals a fatal parent-conflict when the widget
already has a parent or is being made its own parent, leaving the tree
unchanged in both cases; attaching an unattached widget to one frame
succeeds and then attaching it to any second frame (without a detach in
between) fails with the parent-conflict condition, still holding the first
parent. -/
theorem claim_C5_set_parent (w : WidgetTree) (f1 f2 : Nat) :
    (w.m_parent.isSome → w.set_parent f1 = (w, some "widget already has a parent"))
    ∧ (f1 = w.selfid → (w.set_parent f1).1 = w ∧ (w.set_parent f1).2.isSome)
    ∧ (w.m_parent = none → f1 ≠ w.selfid →
        w.set_parent f1 = ({ w with m_parent := some f1 }, none)
        ∧ ((w.set_parent f1).1.set_parent f2
            = ((w.set_parent f1).1, some "widget already has a parent"))) := by
  refine ⟨fun h => ?_, fun h => ?_, fun h1 h2 => ?_⟩
  · simp [WidgetTree.set_parent, h]
  · rcases hp : w.m_parent with _ | q <;>
      simp [WidgetTree.set_parent, hp, h]
  · simp [WidgetTree.set_parent, h1, h2]

/-- C7: `hide()` issues its `damage()` call before setting the invisible
flag (the call still sees the widget as visible) and `show()` issues its
call after clearing the flag (the call sees the widget as visible again);
a visible widget that is hidden and then shown, with no other state
change, ends in its original state having fired exactly two damage events,
both against the same rectangle `box()`. -/
theorem claim_C7_hide_show (w : WidgetVis) (h : w.m_invisible = false) :
    ((w.hide).1.show).1 = w
    ∧ (w.hide).2 ++ ((w.hide).1.show).2 = [⟨w.m_box, true⟩, ⟨w.m_box, true⟩] := by
  cases w
  simp_all [WidgetVis.hide, WidgetVis.show]

/-- C6: for every widget and every point `p`,
`display_to_local(local_to_display(p)) = p`, and `display_origin()` equals
the plain sum of the local points of the widget and its whole ancestor
chain up to the root. -/
theorem claim_C6_transforms (w : WidgetPos) (p : Point) :
    w.display_to_local (w.local_to_display p) = p
    ∧ w.display_origin = chain_point_sum (w.selfPoint :: w.ancestors) := by
  constructor
  · simp only [WidgetPos.local_to_display, WidgetPos.display_to_local,
      foldl_add_point, foldl_sub_point]
    cases p
    simp only [Point.add_def, Point.sub_def, Point.mk.injEq]
    omega
  · simp only [WidgetPos.display_origin, foldl_add_point, chain_point_sum_cons]

/-- The clamped alpha always lands in `[0, 1]`. -/
theorem clamp_unit_mem (a : ℚ) : 0 ≤ clamp a 0 1 ∧ clamp a 0 1 ≤ 1 := by
  unfold clamp
  split_ifs <;> constructor <;> linarith

/-- One alpha-setter step preserves `0 ≤ alpha ≤ 1`. -/
theorem alpha_step_bounds (w : WidgetAlpha) (a : ℚ)
    (h0 : 0 ≤ w.m_alpha) (h1 : w.m_alpha ≤ 1) :
    0 ≤ (w.alpha a).1.m_alpha ∧ (w.alpha a).1.m_alpha ≤ 1 := by
  unfold WidgetAlpha.alpha
  dsimp only
  split_ifs with h
  · exact clamp_unit_mem a
  · exact ⟨h0, h1⟩

/-- C10: the alpha setter clamps its input into `[0, 1]` before comparing,
so starting from a stored alpha in `[0, 1]` every sequence of alpha
operations keeps `0 ≤ alpha ≤ 1`; damage is triggered exactly when the
clamped value differs from the current one, and an input whose clamped
value equals the current alpha (in particular an out-of-range input
clamping onto it) causes no state change and no damage. -/
theorem claim_C10_alpha (w : WidgetAlpha) (as : List ℚ) (a : ℚ) :
    (0 ≤ w.m_alpha → w.m_alpha ≤ 1 →
      0 ≤ (w.alpha_seq as).m_alpha ∧ (w.alpha_seq as).m_alpha ≤ 1)
    ∧ ((w.alpha a).2 = true ↔ clamp a 0 1 ≠ w.m_alpha)
    ∧ (clamp a 0 1 = w.m_alpha → w.alpha a = (w, false)) := by
  refine ⟨?_, ?_, ?_⟩
  · intro h0 h1
    induction as generalizing w with
    | nil => exact ⟨h0, h1⟩
    | cons b bs ih =>
      have hb := alpha_step_bounds w b h0 h1
      exact ih _ hb.1 hb.2
  · unfold WidgetAlpha.alpha
    dsimp only
    split_ifs with h <;> simp [h]
  · intro h
    unfold WidgetAlpha.alpha
    simp [h]

/-- C3 counterexample: with sheet width 300, frame width 100, frame height
50 and zero base offsets, frame index 3 makes the code land on sheet row 1
(`pan_y = frame_h = 50`, `pan_x = 0`), yet the claim's wraparound
condition `(i*fw) mod sheet_w + fw > sheet_w` is false there
(`(300 mod 300) + 100 = 100 ≤ 300`): the code wraps exactly when the raw
offset satisfies `i*fw + fw ≥ sheet_w`, not when the claim's
mod-reduced condition holds. -/
theorem claim_C3_counterexample :
    pan_pos ⟨0, 0, 100, 50, 300⟩ 3 = (0, 50)
    ∧ ¬ ((3 * 100) % 300 + 100 > 300) := by
  decide

/-- C3 as amended: with zero base offsets the computed pan position is
`pan_x = (i*fw) mod sheet_w` and `pan_y = ((i*fw) div sheet_w) * frame_h`;
with a base row offset `base_offset_y` the multi-row branch — entered
exactly when the raw offset satisfies `i*fw + fw ≥ sheet_w` (inclusive at
equality, not the mod-reduced test) — yields
`pan_y = ((i*fw) div sheet_w) * (frame_h + base_offset_y)`, while outside
it `pan_y = base_offset_y`; concretely, sheet width 300, frame width 100,
index 5 (offset 500) yields `pan_x = 200` on row 1. -/
theorem claim_C3_amended (sw fw fh fy i : Nat) :
    ((pan_pos ⟨0, 0, fw, fh, sw⟩ i).1 = (i * fw) % sw
      ∧ (pan_pos ⟨0, 0, fw, fh, sw⟩ i).2 = ((i * fw) / sw) * fh)
    ∧ (i * fw + fw ≥ sw →
        pan_pos ⟨0, fy, fw, fh, sw⟩ i = ((i * fw) % sw, ((i * fw) / sw) * (fh + fy)))
    ∧ (i * fw + fw < sw → pan_pos ⟨0, fy, fw, fh, sw⟩ i = (i * fw, fy))
    ∧ pan_pos ⟨0, 0, 100, fh, 300⟩ 5 = (200, fh) := by
  refine ⟨?_, ?_, ?_, ?_⟩
  · unfold pan_pos
    simp only [Nat.zero_add]
    split
    · simp [Nat.mul_comm]
    · next hlt =>
      have hfl : i * fw < sw := by omega
      simp [Nat.mod_eq_of_lt hfl, Nat.div_eq_of_lt hfl]
  · intro h
    unfold pan_pos
    simp only [Nat.zero_add]
    rw [if_pos (by omega)]
    have : (i * fw) / sw * fy + (i * fw) / sw * fh = (i * fw) / sw * (fh + fy) := by ring
    simp [this]
  · intro h
    unfold pan_pos
    simp only [Nat.zero_add]
    rw [if_neg (by omega)]
  · unfold pan_pos
    norm_num

/-- The pointer loop is delivery to the first child (in iteration order)
that is eligible and whose box contains the point. -/
theorem pointer_loop_eq_find (ls : List Child) (pos : Point) :
    pointer_loop ls pos
      = ls.find? (fun c => c.can_handle_event && c.m_box.containsPoint pos) := by
  induction ls with
  | nil => rfl
  | cons c rest ih =>
    by_cases he : c.can_handle_event = true
    · by_cases hb : c.m_box.containsPoint pos = true <;>
        simp [pointer_loop, List.find?, he, hb, ih]
    · simp only [Bool.not_eq_true] at he
      simp [pointer_loop, List.find?, he, ih]

/-- The keyboard loop visits the eligible children in iteration order,
stopping at the first consumer. -/
theorem keyboard_loop_eq (ls : List Child) :
    keyboard_loop ls = visit_until_consumed (ls.filter (·.can_handle_event)) := by
  induction ls with
  | nil => rfl
  | cons c rest ih =>
    by_cases he : c.can_handle_event = true
    · by_cases hc : c.consumes = true <;>
        simp [keyboard_loop, visit_until_consumed, List.filter_cons, he, hc, ih]
    · simp only [Bool.not_eq_true] at he
      simp [keyboard_loop, List.filter_cons, he, ih]

/-- When nothing consumes, the early stop never fires. -/
theorem visit_until_consumed_all (ls : List Child)
    (h : ∀ c ∈ ls, c.consumes = false) : visit_until_consumed ls = ls := by
  induction ls with
  | nil => rfl
  | cons c rest ih =>
    have hc := h c (List.mem_cons_self c rest)
    simp [visit_until_consumed, hc, ih fun d hd => h d (List.mem_cons_of_mem c hd)]

/-- C8: a pointer event is hit-tested over the children in reverse z-order
(topmost first) at the event point converted to local coordinates, and is
delivered to the first eligible child whose box contains the point — so
whatever child receives it is eligible and contains the point, and at most
one child receives it; a keyboard event visits every eligible child in
reverse z-order, stopping early exactly at the first child that marks the
event consumed — in particular, when no child consumes it, every eligible
child is visited. -/
theorem claim_C8_dispatch (w : WidgetPos) (children : List Child) (dp : Point) :
    (handle_pointer w children dp
      = children.reverse.find?
          (fun c => c.can_handle_event && c.m_box.containsPoint (w.display_to_local dp)))
    ∧ (∀ c, handle_pointer w children dp = some c →
        c.can_handle_event = true
        ∧ c.m_box.containsPoint (w.display_to_local dp) = true)
    ∧ (handle_keyboard children
      = visit_until_consumed (children.reverse.filter (·.can_handle_event)))
    ∧ ((∀ c ∈ children, c.consumes = false) →
        handle_keyboard children = children.reverse.filter (·.can_handle_event)) := by
  refine ⟨pointer_loop_eq_find _ _, ?_, keyboard_loop_eq _, ?_⟩
  · intro c hc
    rw [handle_pointer, pointer_loop_eq_find] at hc
    have := List.find?_some hc
    simpa using this
  · intro h
    rw [handle_keyboard, keyboard_loop_eq]
    refine visit_until_consumed_all _ fun c hc => ?_
    exact h c (List.mem_reverse.mp (List.mem_of_mem_filter hc))

/-- C9 helper: the two-argument color resolver is first-match over the
widget's override chain, with the global palette / theme default as the
terminal fallback. -/
theorem resolve_color_first_match (env : ResolveEnv) (chain : List (Option Palette))
    (cid : ColorId) (g : GroupId) :
    resolve_color env chain cid g
      = (chain.findSome? fun op => op.bind fun pal => palette_lookup pal cid g).getD
          (env.fallback cid g) := by
  induction chain with
  | nil => rfl
  | cons op rest ih =>
    cases h : op.bind fun pal => palette_lookup pal cid g <;>
      simp [resolve_color, List.findSome?_cons, h, ih]

/-- C9 helper: font resolution is the identical first-match chain. -/
theorem resolve_font_first_match (env : FontEnv) (chain : List (Option FontVal)) :
    resolve_font env chain
      = (chain.findSome? fun of => of).getD
          (match env.global_font with | some f => f | none => env.theme_font) := by
  induction chain with
  | nil => rfl
  | cons of rest ih =>
    cases of <;> simp [resolve_font, List.findSome?_cons, ih]

/-- C9: color resolution never fails (it is a total function into
patterns) and follows the fixed chain: `color(id)` selects the state group
with precedence disabled > active > checked > normal, first matching state
winning; the two-argument resolver is first-match over the widget's own
palette, then the ancestors' (parent first), then the process-wide global
palette when set, and always terminally the global theme's default
palette; font resolution follows the identical chain. -/
theorem claim_C9_resolution (env : ResolveEnv) (fenv : FontEnv)
    (chain : List (Option Palette)) (fchain : List (Option FontVal))
    (d a c : Bool) (cid : ColorId) (g : GroupId) :
    (color_one env chain d a c cid = resolve_color env chain cid (infer_group d a c))
    ∧ (infer_group d a c = .disabled ↔ d = true)
    ∧ (infer_group d a c = .active ↔ d = false ∧ a = true)
    ∧ (infer_group d a c = .checked ↔ d = false ∧ a = false ∧ c = true)
    ∧ (infer_group d a c = .normal ↔ d = false ∧ a = false ∧ c = false)
    ∧ (resolve_color env chain cid g
        = (chain.findSome? fun op => op.bind fun pal => palette_lookup pal cid g).getD
            (env.fallback cid g))
    ∧ (resolve_font fenv fchain
        = (fchain.findSome? fun of => of).getD
            (match fenv.global_font with | some f => f | none => fenv.theme_font)) := by
  refine ⟨rfl, ?_, ?_, ?_, ?_, resolve_color_first_match env chain cid g,
    resolve_font_first_match fenv fchain⟩ <;>
    cases d <;> cases a <;> cases c <;> simp [infer_group]

/-- The intersection of two rectangles is either the (empty) zero
rectangle or contained in the right operand. -/
theorem intersection_zero_or_subset (a b : Rect) :
    Rect.intersection a b = ⟨0, 0, 0, 0⟩ ∨ (Rect.intersection a b).subset b := by
  unfold Rect.intersection
  dsimp only
  split
  · exact Or.inl rfl
  · next h =>
    right
    unfold Rect.subset
    dsimp only
    simp only [Bool.or_eq_true, decide_eq_true_eq, not_or] at h
    refine ⟨le_max_right _ _, le_max_right _ _, ?_, ?_⟩ <;> omega

/-- The bounding rectangle of two rectangles inside `B` stays inside `B`. -/
theorem merge_subset (a b B : Rect) (ha : a.subset B) (hb : b.subset B) :
    (Rect.merge a b).subset B := by
  unfold Rect.merge Rect.subset at *
  dsimp only at *
  refine ⟨?_, ?_, ?_, ?_⟩ <;> omega

/-- The coalescing loop of the damage merge keeps every dirty rectangle
inside `B` when they all start inside `B` and the new one is inside `B`. -/
theorem damage_algorithm_go_subset (B : Rect) (ls : List Rect) (r : Rect)
    (hls : ∀ t ∈ ls, t.subset B) (hr : r.subset B) :
    ∀ t ∈ damage_algorithm.go ls r, t.subset B := by
  induction ls generalizing r with
  | nil =>
    intro t ht
    simp only [damage_algorithm.go, List.mem_singleton] at ht
    exact ht ▸ hr
  | cons i rest ih =>
    intro t ht
    have hi := hls i (List.mem_cons_self i rest)
    have hrest := fun s hs => hls s (List.mem_cons_of_mem i hs)
    unfold damage_algorithm.go at ht
    split at ht
    · exact ih (Rect.merge i r) hrest (merge_subset i r B hi hr) t ht
    · rcases List.mem_cons.mp ht with h | h
      · exact h ▸ hi
      · exact ih r hrest hr t h

/-- The damage merge keeps every dirty rectangle inside `B` when the
existing ones are inside `B` and the new one is inside `B` unless empty. -/
theorem damage_algorithm_subset (B : Rect) (ls : List Rect) (r : Rect)
    (hls : ∀ t ∈ ls, t.subset B) (hr : r.empty = false → r.subset B) :
    ∀ t ∈ damage_algorithm ls r, t.subset B := by
  unfold damage_algorithm
  split
  · exact hls
  · next h =>
    exact damage_algorithm_go_subset B ls r hls (hr (by simpa using h))

/-- Any non-error outcome of `add_damage` is either the unchanged widget
(the benign empty-rectangle no-op) or the widget with exactly the clipped
rectangle merged into its dirty set. -/
theorem add_damage_ok (w wa : Widget) (rect : Rect)
    (h : w.add_damage rect = .ok wa) :
    wa = w
    ∨ wa = { w with m_damage := damage_algorithm w.m_damage (Rect.intersection rect (w.to_child w.m_box)) } := by
  unfold Widget.add_damage at h
  split_ifs at h
  · exact Or.inl (Except.ok.inj h).symm
  · exact Or.inr (Except.ok.inj h).symm

/-- C1: `damage(rect)` is a no-op for an empty rectangle or an invisible
widget; a widget with no direct screen translates the damage into the
parent's coordinate space and forwards it to the parent, discarding it
only when it has neither a screen nor a parent; a widget with a screen
merges exactly the intersection of the rectangle with its own (locally
translated) box into the dirty set, and — whatever path `damage` takes —
no rectangle outside the widget's own box ever enters its dirty set. -/
theorem claim_C1_damage (w : Widget) (ps : Chain) (rect : Rect) :
    (rect.empty = true → damage (w :: ps) rect = .ok (w :: ps))
    ∧ (w.m_invisible = true → damage (w :: ps) rect = .ok (w :: ps))
    ∧ (rect.empty = false → w.m_invisible = false → w.m_has_screen = false →
        ∀ p ps2, ps = p :: ps2 →
          damage (w :: ps) rect
            = (damage ps (rect.translate p.point)).map (fun l => w :: l))
    ∧ (w.m_has_screen = false → ps = [] → damage (w :: ps) rect = .ok (w :: ps))
    ∧ (rect.empty = false → w.m_invisible = false → w.m_has_screen = true →
        w.m_in_draw = false →
        damage (w :: ps) rect
          = .ok ({ w with m_damage := damage_algorithm w.m_damage (Rect.intersection rect (w.to_child w.m_box)) } :: ps))
    ∧ ((∀ t ∈ w.m_damage, t.subset (w.to_child w.m_box)) →
        ∀ w' ps', damage (w :: ps) rect = .ok (w' :: ps') →
          ∀ t ∈ w'.m_damage, t.subset (w.to_child w.m_box)) := by
  refine ⟨?_, ?_, ?_, ?_, ?_, ?_⟩
  · intro h
    rw [damage.eq_def]
    simp [h]
  · intro h
    rw [damage.eq_def]
    simp [Widget.visible, h]
  · intro hre hvis hscr p ps2 hps
    subst hps
    rw [damage.eq_def]
    simp only [hre, hvis, hscr, Widget.visible, Bool.not_false, Bool.not_true,
      Bool.false_eq_true, if_false, if_true]
    cases hd : damage (p :: ps2) (rect.translate p.point) <;>
      simp [hd, Except.map, bind, Except.bind, pure, Except.pure]
  · intro hscr hps
    subst hps
    rw [damage.eq_def]
    by_cases hre : rect.empty <;> by_cases hvis : w.m_invisible <;>
      simp [Widget.visible, hscr, hre, hvis]
  · intro hre hvis hscr hdraw
    rw [damage.eq_def]
    simp [Widget.visible, Widget.add_damage, hre, hvis, hscr, hdraw,
      bind, Except.bind, pure, Except.pure]
  · intro hinv w' ps' hok
    rw [damage.eq_def] at hok
    dsimp only at hok
    by_cases hre : rect.empty = true
    · rw [if_pos hre] at hok
      obtain ⟨hw, -⟩ := List.cons.inj (Except.ok.inj hok)
      subst hw
      exact hinv
    · rw [if_neg hre] at hok
      by_cases hvis : (!w.visible) = true
      · rw [if_pos hvis] at hok
        obtain ⟨hw, -⟩ := List.cons.inj (Except.ok.inj hok)
        subst hw
        exact hinv
      · rw [if_neg hvis] at hok
        by_cases hscr : (!w.m_has_screen) = true
        · rw [if_pos hscr] at hok
          cases ps with
          | nil =>
            obtain ⟨hw, -⟩ := List.cons.inj (Except.ok.inj hok)
            subst hw
            exact hinv
          | cons p ps2 =>
            dsimp only at hok
            cases hd : damage (p :: ps2) (rect.translate p.point) with
            | error e =>
              rw [hd] at hok
              simp [bind, Except.bind] at hok
            | ok l =>
              rw [hd] at hok
              simp only [bind, Except.bind, pure, Except.pure] at hok
              obtain ⟨hw, -⟩ := List.cons.inj (Except.ok.inj hok)
              subst hw
              exact hinv
        · rw [if_neg hscr] at hok
          cases had : w.add_damage rect with
          | error e =>
            rw [had] at hok
            simp [bind, Except.bind] at hok
          | ok wa =>
            rw [had] at hok
            simp only [bind, Except.bind, pure, Except.pure] at hok
            obtain ⟨hw, -⟩ := List.cons.inj (Except.ok.inj hok)
            subst hw
            rcases add_damage_ok w wa rect had with h | h
            · subst h
              exact hinv
            · subst h
              refine damage_algorithm_subset _ _ _ hinv (fun hne => ?_)
              rcases intersection_zero_or_subset rect (w.to_child w.m_box) with hz | hs
              · rw [hz] at hne
                simp [Rect.empty] at hne
              · exact hs

/-- C4: requesting damage on a widget that is mid-draw is a fatal,
non-recoverable programming error: a non-empty damage request fails with
the `assert(!m_in_draw)` condition rather than continuing, and in no case
— empty request included — is a rectangle merged into the dirty set while
the in-draw flag is set (any non-error outcome leaves the widget, its
dirty set included, exactly unchanged). -/
theorem claim_C4_in_draw (w : Widget) (rect : Rect)
    (hscreen : w.m_has_screen = true) (hdraw : w.m_in_draw = true) :
    (rect.empty = false → w.add_damage rect = .error "assert failed: !m_in_draw")
    ∧ (∀ w', w.add_damage rect = .ok w' → w' = w) := by
  constructor
  · intro hre
    simp [Widget.add_damage, hscreen, hre, hdraw]
  · intro w' hok
    unfold Widget.add_damage at hok
    simp only [hscreen, Bool.not_true, Bool.false_eq_true, if_false] at hok
    by_cases hre : rect.empty
    · simp only [hre, if_true, Except.ok.injEq] at hok
      exact hok.symm
    · simp [hre, hdraw] at hok

/-- Witness for C4 at a concrete mid-draw widget with a screen and a
non-empty rectangle. -/
theorem claim_C4_in_draw_witness :
    (((⟨1, 1, 2, 2⟩ : Rect).empty = false →
        Widget.add_damage ⟨⟨0, 0, 10, 10⟩, false, true, true, []⟩ ⟨1, 1, 2, 2⟩
          = .error "assert failed: !m_in_draw")
      ∧ (∀ w', Widget.add_damage ⟨⟨0, 0, 10, 10⟩, false, true, true, []⟩ ⟨1, 1, 2, 2⟩
            = .ok w' → w' = ⟨⟨0, 0, 10, 10⟩, false, true, true, []⟩)) :=
  claim_C4_in_draw ⟨⟨0, 0, 10, 10⟩, false, true, true, []⟩ ⟨1, 1, 2, 2⟩ rfl rfl

/-- Witness for C7 at a concrete visible widget. -/
theorem claim_C7_hide_show_witness :
    (((⟨⟨1, 2, 30, 40⟩, false⟩ : WidgetVis).hide).1.show).1
      = (⟨⟨1, 2, 30, 40⟩, false⟩ : WidgetVis)
    ∧ ((⟨⟨1, 2, 30, 40⟩, false⟩ : WidgetVis).hide).2
        ++ ((((⟨⟨1, 2, 30, 40⟩, false⟩ : WidgetVis)).hide).1.show).2
      = [⟨⟨1, 2, 30, 40⟩, true⟩, ⟨⟨1, 2, 30, 40⟩, true⟩] :=
  claim_C7_hide_show ⟨⟨1, 2, 30, 40⟩, false⟩ rfl

end Egt
